import Mathlib

/-!
Verification of the `social-agent` control plane against its specification.

The core components of the repository are shallowly embedded here:

* `SocialAgent.check_health` — the Health Monitor
  (`src/social_agent/control.py`, `SandboxController.check_health`);
* `SocialAgent.migrate` and its helpers — the Migration State Machine
  (`src/social_agent/lifecycle.py`, `LifecycleManager`);
* `SocialAgent.handleOneSandbox` / `handleMultipleSandboxes` / `exitCode` —
  the Reconciler (`scripts/watchdog_check.py`);
* `SocialAgent.processEntry` / `workerDrain` — the Persistent Sync Worker
  (`src/social_agent/git_sync.py`, `GitSync._process_entry` / `_worker`).

External effects (the E2B instance client, the clock, file I/O inside a
sandbox) are modelled as explicit oracle parameters and an explicit
controller state holding the list of live sandboxes and the trace of
issued kill calls, so that each Python method becomes a pure state-passing
function. Float quantities (heartbeat ages, thresholds) are modelled as
rationals; Python truthiness (`x or default`) is modelled explicitly where
the code relies on it.
-/

namespace SocialAgent

/-- Health states from `control.py` (`HealthStatus` StrEnum). -/
inductive HealthStatus
  | healthy
  | stuck
  | dead
  | unknown
  deriving DecidableEq, Repr

/-- Result of a health check (`control.py`, dataclass `HealthCheck`). -/
structure HealthCheck where
  sandbox_id : String
  status : HealthStatus
  last_heartbeat : Option String := none
  current_action : Option String := none
  seconds_since_heartbeat : Option ℚ := none
  error : Option String := none
  deriving DecidableEq, Repr

/-- The parsed heartbeat JSON object as `check_health` consumes it:
`heartbeat.get("timestamp")` and `heartbeat.get("current_action")`,
each `none` when the key is absent. -/
structure HeartbeatJson where
  timestamp : Option String := none
  current_action : Option String := none
  deriving DecidableEq, Repr

/-- Outcome of the `read_file` + `json.loads` attempt at the top of
`check_health`: either the combined `try` raised, or it produced a parsed
heartbeat object. -/
inductive ReadOutcome
  | failure
  | ok (hb : HeartbeatJson)
  deriving DecidableEq, Repr

/-- Python truthiness of the `timestamp` field: `if not timestamp_str`
fires when the key is missing or its value is the empty string. -/
def timestampFalsy : Option String → Bool
  | none => true
  | some s => s = ""

/-- Model of `SandboxController.check_health` (`control.py` lines 380-453).

Environment oracles: `readResult` is the outcome of reading and JSON-parsing
`heartbeat.json`; `alive` is what `is_alive` would report; `parseIso ts`
is the instant `datetime.fromisoformat(ts)` denotes in epoch seconds, or
`none` when `fromisoformat` raises or the subsequent aware/naive
subtraction raises (`except (ValueError, TypeError)`); `now` is the
current time in epoch seconds. -/
def check_health (sandbox_id : String) (readResult : ReadOutcome) (alive : Bool)
    (parseIso : String → Option ℚ) (now : ℚ)
    (healthy_threshold : ℚ := 60) (stuck_threshold : ℚ := 600) : HealthCheck :=
  match readResult with
  | .failure =>
      if alive then
        { sandbox_id := sandbox_id, status := .unknown,
          error := some "Cannot read heartbeat" }
      else
        { sandbox_id := sandbox_id, status := .dead,
          error := some "Sandbox not running" }
  | .ok hb =>
      if timestampFalsy hb.timestamp then
        { sandbox_id := sandbox_id, status := .unknown,
          error := some "Heartbeat has no timestamp",
          current_action := hb.current_action }
      else
        match hb.timestamp with
        | none =>
            { sandbox_id := sandbox_id, status := .unknown,
              error := some "Heartbeat has no timestamp",
              current_action := hb.current_action }
        | some ts =>
            match parseIso ts with
            | none =>
                { sandbox_id := sandbox_id, status := .unknown,
                  error := some "Invalid timestamp" }
            | some t =>
                let elapsed := now - t
                let status :=
                  if elapsed < healthy_threshold then HealthStatus.healthy
                  else if elapsed < stuck_threshold then HealthStatus.stuck
                  else HealthStatus.dead
                { sandbox_id := sandbox_id, status := status,
                  last_heartbeat := some ts,
                  current_action := hb.current_action,
                  seconds_since_heartbeat := some elapsed }

/-! ### Lifecycle manager (`lifecycle.py`) -/

/-- Constant `_MAX_CONCURRENT_SANDBOXES` (`lifecycle.py` line 34). -/
def MAX_CONCURRENT_SANDBOXES : Nat := 2

/-- Constant `_MAX_MIGRATIONS_PER_DAY` (`lifecycle.py` line 35). -/
def MAX_MIGRATIONS_PER_DAY : Nat := 10

/-- Constant `_DEFAULT_VERIFY_TIMEOUT_S` (`lifecycle.py` line 37). -/
def DEFAULT_VERIFY_TIMEOUT_S : ℤ := 120

/-- Constant `_DEFAULT_VERIFY_POLL_INTERVAL_S` (`lifecycle.py` line 38). -/
def DEFAULT_VERIFY_POLL_INTERVAL_S : ℤ := 5

/-- Result of a migration attempt (`lifecycle.py`, dataclass
`MigrationResult`). Durations are not modelled (the monotonic clock is
outside the embedding), so `duration_s` is fixed at `0`. -/
structure MigrationResult where
  success : Bool
  old_sandbox_id : String
  new_sandbox_id : String
  duration_s : ℚ := 0
  error : String := ""
  deriving DecidableEq, Repr

/-- The remote provisioning service as the controller sees it: the list of
currently live sandboxes (in listing order) together with the trace of
kill calls the control plane has issued. -/
structure ControllerEnv where
  live : List String
  killCalls : List String := []
  deriving DecidableEq, Repr

/-- Model of `SandboxController.kill` (`control.py` lines 92-106): the static E2B
kill call removes the sandbox and returns `True` when it is live, and
returns `False` when it is not found / already dead. Every call is
recorded in the trace. -/
def ControllerEnv.kill (env : ControllerEnv) (sandbox_id : String) :
    Bool × ControllerEnv :=
  if sandbox_id ∈ env.live then
    (true, { live := env.live.erase sandbox_id,
             killCalls := env.killCalls ++ [sandbox_id] })
  else
    (false, { env with killCalls := env.killCalls ++ [sandbox_id] })

/-- Mutable safety counters of the `LifecycleManager`
(`_migrations_today`, `_last_migration_date`). -/
structure LifecycleState where
  migrations_today : Nat := 0
  last_migration_date : String := ""
  deriving DecidableEq, Repr

/-- Model of `LifecycleManager._reset_daily_counter` (`lifecycle.py` lines 374-381):
zero the counter when the wall-clock date differs from the recorded one. -/
def resetDailyCounter (today : String) (s : LifecycleState) : LifecycleState :=
  if today ≠ s.last_migration_date then
    { migrations_today := 0, last_migration_date := today }
  else s

/-- Model of `LifecycleManager.can_migrate` (`lifecycle.py` lines 82-86): reset the
daily counter, then compare against the daily limit. Returns the answer
together with the (possibly reset) counter state. -/
def canMigrate (today : String) (maxPerDay : Nat) (s : LifecycleState) :
    Bool × LifecycleState :=
  let s1 := resetDailyCounter today s
  (s1.migrations_today < maxPerDay, s1)

/-- External-world decisions for one `migrate` call: the current date,
whether `Sandbox.create` succeeds and with which fresh id, whether every
deploy step succeeds, whether the successor passes health verification,
and whether the best-effort `inject_override` write raises. -/
structure MigrateEnv where
  today : String
  createOutcome : Option String
  deployOk : Bool
  verifyOk : Bool
  injectRaises : Bool := false
  deriving DecidableEq, Repr

/-- Model of `LifecycleManager.create_successor` (`lifecycle.py` lines 125-148):
refuse when the live population is already at the concurrency cap; then
`Sandbox.create` either raises (`none`) or yields a new live sandbox. -/
def createSuccessor (createOutcome : Option String) (env : ControllerEnv) :
    Option String × ControllerEnv :=
  if MAX_CONCURRENT_SANDBOXES ≤ env.live.length then (none, env)
  else
    match createOutcome with
    | none => (none, env)
    | some new_id => (some new_id, { env with live := env.live ++ [new_id] })

/-- Model of `SandboxController.inject_override` as `graceful_shutdown` calls it:
the write inside the old sandbox either succeeds or raises. -/
def inject_override (raises : Bool) : Except String Unit :=
  if raises then Except.error "write failed" else Except.ok ()

/-- Model of `LifecycleManager.graceful_shutdown` (`lifecycle.py` lines 231-261):
best-effort audit note (exceptions caught and only logged), then kill the
old sandbox; the migration counter is incremented only when that kill
reports success. -/
def gracefulShutdown (injectRaises : Bool) (sandbox_id : String)
    (s : LifecycleState) (env : ControllerEnv) :
    Bool × LifecycleState × ControllerEnv :=
  let rest : LifecycleState × ControllerEnv → Bool × LifecycleState × ControllerEnv :=
    fun p =>
      let (killed, env1) := p.2.kill sandbox_id
      if killed then
        (true, { p.1 with migrations_today := p.1.migrations_today + 1 }, env1)
      else (false, p.1, env1)
  match inject_override injectRaises with
  | Except.ok _ => rest (s, env)
  | Except.error _ => rest (s, env)

/-- Model of `LifecycleManager.migrate` (`lifecycle.py` lines 263-349): limit check,
create, deploy (cleanup on failure), verify (cleanup on failure), then
graceful shutdown of the old sandbox; the overall result is success even
when the shutdown fails. -/
def migrate (menv : MigrateEnv) (current_sandbox_id : String) (maxPerDay : Nat)
    (s : LifecycleState) (env : ControllerEnv) :
    MigrationResult × LifecycleState × ControllerEnv :=
  let (ok, s1) := canMigrate menv.today maxPerDay s
  if ¬ ok then
    ({ success := false, old_sandbox_id := current_sandbox_id,
       new_sandbox_id := "", error := "Daily migration limit reached" },
     s1, env)
  else
    match createSuccessor menv.createOutcome env with
    | (none, env1) =>
        ({ success := false, old_sandbox_id := current_sandbox_id,
           new_sandbox_id := "", error := "Failed to create successor sandbox" },
         s1, env1)
    | (some new_id, env1) =>
        if ¬ menv.deployOk then
          let (_, env2) := env1.kill new_id
          ({ success := false, old_sandbox_id := current_sandbox_id,
             new_sandbox_id := new_id, error := "Failed to deploy to successor" },
           s1, env2)
        else if ¬ menv.verifyOk then
          let (_, env2) := env1.kill new_id
          ({ success := false, old_sandbox_id := current_sandbox_id,
             new_sandbox_id := new_id,
             error := "Successor failed health verification" },
           s1, env2)
        else
          let (_, s2, env2) :=
            gracefulShutdown menv.injectRaises current_sandbox_id s1 env1
          ({ success := true, old_sandbox_id := current_sandbox_id,
             new_sandbox_id := new_id }, s2, env2)

/-- Effective timeout computation in `LifecycleManager.verify_successor`
(`lifecycle.py` line 216): Python `timeout or self.verify_timeout_s`
replaces both `None` and the falsy integer `0` by the configured value. -/
def effectiveTimeout (timeout : Option ℤ) (verify_timeout_s : ℤ) : ℤ :=
  match timeout with
  | none => verify_timeout_s
  | some t => if t = 0 then verify_timeout_s else t

/-- The polling loop of `verify_successor` (`lifecycle.py` lines 219-224),
discretised: the k-th iteration runs at elapsed time `5 * k` seconds
(the poll interval), checks health, and continues while the elapsed time
is below the effective timeout. `fuel` bounds the recursion. -/
def verifyLoop (health : Nat → HealthStatus) (effTimeout : ℤ) :
    Nat → Nat → Bool
  | 0, _ => false
  | fuel + 1, k =>
      if DEFAULT_VERIFY_POLL_INTERVAL_S * (k : ℤ) < effTimeout then
        if health k = HealthStatus.healthy then true
        else verifyLoop health effTimeout fuel (k + 1)
      else false

/-- Model of `LifecycleManager.verify_successor` (`lifecycle.py` lines 197-229):
poll `check_health` until `HEALTHY` or until the effective timeout
elapses. `health k` is the status observed at the k-th poll. -/
def verify_successor (health : Nat → HealthStatus) (timeout : Option ℤ)
    (verify_timeout_s : ℤ) : Bool :=
  let eff := effectiveTimeout timeout verify_timeout_s
  verifyLoop health eff (eff.toNat + 1) 0

/-! ### Reconciler / watchdog (`scripts/watchdog_check.py`) -/

/-- Result of a watchdog check cycle (`watchdog_check.py`, dataclass
`WatchdogResult`). -/
structure WatchdogResult where
  action : String
  sandbox_id : String := ""
  killed : List String := []
  error : String := ""
  deriving DecidableEq, Repr

/-- External-world oracles for one watchdog pass: `healthDefault id` is
what `check_health(id)` with default thresholds reports (the
classification loop of `_handle_multiple_sandboxes`); `healthStuck id` is
what `check_health(id, stuck_threshold=config.stuck_threshold_s)` reports
(the single-sandbox check and the keeper re-check); `createOutcome` and
`deployOk` are the successor creation/deployment outcomes as in
`MigrateEnv`. -/
structure WatchdogEnv where
  healthDefault : String → HealthCheck
  healthStuck : String → HealthCheck
  createOutcome : Option String
  deployOk : Bool

/-- Model of `_handle_no_sandboxes` (`watchdog_check.py` lines 118-139). -/
def handleNoSandboxes (wenv : WatchdogEnv) (env : ControllerEnv) :
    WatchdogResult × ControllerEnv :=
  match createSuccessor wenv.createOutcome env with
  | (none, env1) =>
      ({ action := "failed", error := "Failed to create sandbox" }, env1)
  | (some new_id, env1) =>
      if ¬ wenv.deployOk then
        let (_, env2) := env1.kill new_id
        ({ action := "failed", error := "Failed to deploy to new sandbox" }, env2)
      else ({ action := "deployed", sandbox_id := new_id }, env1)

/-- Model of `_handle_one_sandbox` (`watchdog_check.py` lines 142-202): `HEALTHY`
is a no-op; `STUCK`/`DEAD` triggers kill plus create+deploy; any other
status (`UNKNOWN`) falls through to the trailing leave-it-running return. -/
def handleOneSandbox (wenv : WatchdogEnv) (sandbox_id : String)
    (env : ControllerEnv) : WatchdogResult × ControllerEnv :=
  let health := wenv.healthStuck sandbox_id
  if health.status = HealthStatus.healthy then
    ({ action := "healthy", sandbox_id := sandbox_id }, env)
  else if health.status = HealthStatus.stuck ∨ health.status = HealthStatus.dead then
    let (_, env1) := env.kill sandbox_id
    match createSuccessor wenv.createOutcome env1 with
    | (none, env2) =>
        ({ action := "failed", killed := [sandbox_id],
           error := "Killed stuck sandbox but failed to create replacement" },
         env2)
    | (some new_id, env2) =>
        if ¬ wenv.deployOk then
          let (_, env3) := env2.kill new_id
          ({ action := "failed", killed := [sandbox_id],
             error := "Killed stuck sandbox but failed to deploy replacement" },
           env3)
        else
          ({ action := "recovered", sandbox_id := new_id,
             killed := [sandbox_id] }, env2)
  else ({ action := "healthy", sandbox_id := sandbox_id }, env)

/-- Python truthiness in `_handle_multiple_sandboxes` line 221:
`health.seconds_since_heartbeat or float("inf")`. `none` here stands for
`float("inf")`; both a missing value and the falsy float `0.0` become
infinity. -/
def pyOrInf : Option ℚ → Option ℚ
  | none => none
  | some q => if q = 0 then none else some q

/-- Comparison `elapsed < best_elapsed` where `none` stands for
`float("inf")`. -/
def optLtInf : Option ℚ → Option ℚ → Bool
  | some a, some b => a < b
  | some _, none => true
  | none, _ => false

/-- The selection loop of `_handle_multiple_sandboxes` (lines 218-224):
fold over the listing, remembering the best id and best elapsed
(initially `""` and `float("inf")`). -/
def pickBestAux (healthDefault : String → HealthCheck) :
    List String → String → Option ℚ → String
  | [], best_id, _ => best_id
  | sb :: rest, best_id, best_elapsed =>
      let h := healthDefault sb
      if h.status = HealthStatus.healthy then
        let elapsed := pyOrInf h.seconds_since_heartbeat
        if optLtInf elapsed best_elapsed then
          pickBestAux healthDefault rest sb elapsed
        else pickBestAux healthDefault rest best_id best_elapsed
      else pickBestAux healthDefault rest best_id best_elapsed

/-- The best (freshest healthy) sandbox id as the selection loop computes
it; `""` when no sandbox qualified. -/
def pickBest (healthDefault : String → HealthCheck) (ids : List String) :
    String :=
  pickBestAux healthDefault ids "" none

/-- Body of `LifecycleManager.cleanup_orphans` (`lifecycle.py` lines
351-370), folding over the listing snapshot: kill every sandbox other
than the keeper, collecting the ids whose kill reported success. -/
def cleanupOrphansAux (keep : String) :
    List String → ControllerEnv → List String → List String × ControllerEnv
  | [], env, killed => (killed, env)
  | sb :: rest, env, killed =>
      if sb ≠ keep then
        let (ok, env1) := env.kill sb
        cleanupOrphansAux keep rest env1 (if ok then killed ++ [sb] else killed)
      else cleanupOrphansAux keep rest env killed

/-- Model of `LifecycleManager.cleanup_orphans`: snapshot the listing, then kill all
non-keepers. -/
def cleanupOrphans (keep : String) (env : ControllerEnv) :
    List String × ControllerEnv :=
  cleanupOrphansAux keep env.live env []

/-- Model of `_handle_multiple_sandboxes` (`watchdog_check.py` lines 205-276):
classify every sandbox, pick the freshest healthy one (falling back to the
first in listing order), kill the others, then re-check the keeper and
recover if it is itself `STUCK`/`DEAD`. -/
def handleMultipleSandboxes (wenv : WatchdogEnv) (sandboxes : List String)
    (env : ControllerEnv) : WatchdogResult × ControllerEnv :=
  let best0 := pickBest wenv.healthDefault sandboxes
  let best_id := if best0 = "" then sandboxes.headD "" else best0
  let (killed, env1) := cleanupOrphans best_id env
  let keeper := wenv.healthStuck best_id
  if keeper.status = HealthStatus.stuck ∨ keeper.status = HealthStatus.dead then
    let (_, env2) := env1.kill best_id
    let killed1 := killed ++ [best_id]
    match createSuccessor wenv.createOutcome env2 with
    | (none, env3) =>
        ({ action := "failed", killed := killed1,
           error := "All sandboxes unhealthy, failed to create replacement" },
         env3)
    | (some new_id, env3) =>
        if ¬ wenv.deployOk then
          let (_, env4) := env3.kill new_id
          ({ action := "failed", killed := killed1,
             error := "All sandboxes unhealthy, failed to deploy replacement" },
           env4)
        else
          ({ action := "recovered", sandbox_id := new_id, killed := killed1 },
           env3)
  else ({ action := "cleaned", sandbox_id := best_id, killed := killed }, env1)

/-- Model of `run_watchdog` (`watchdog_check.py` lines 89-115): list the sandboxes
and dispatch on the population size. -/
def runWatchdog (wenv : WatchdogEnv) (env : ControllerEnv) :
    WatchdogResult × ControllerEnv :=
  let sandboxes := env.live
  if sandboxes.length = 0 then handleNoSandboxes wenv env
  else if sandboxes.length = 1 then
    handleOneSandbox wenv (sandboxes.headD "") env
  else handleMultipleSandboxes wenv sandboxes env

/-- The process exit code `main` (`watchdog_check.py` lines 279-297)
reports for a completed reconciliation pass: `sys.exit(1)` on action
`"failed"`, and the implicit exit code `0` otherwise. (The configuration
error exit `2` happens in `WatchdogConfig.from_env`, before any pass
runs.) -/
def exitCode (r : WatchdogResult) : Nat :=
  if r.action = "failed" then 1 else 0

/-! ### Persistent sync worker (`git_sync.py`) -/

/-- Constant `_MAX_RETRIES` (`git_sync.py` line 39). -/
def SYNC_MAX_RETRIES : Nat := 3

/-- Constant `_RETRY_DELAY` in seconds (`git_sync.py` line 41). -/
def SYNC_RETRY_DELAY : ℚ := 2

/-- A queued sync request (`git_sync.py`, dataclass `SyncEntry`). -/
structure SyncEntry where
  files : List String
  message : String
  deriving DecidableEq, Repr

/-- A sync outcome as logged to `git_tracker.jsonl` (`git_sync.py`,
dataclass `SyncResult`). The wall-clock fields `timestamp` and
`duration_ms` are outside the embedding and omitted. -/
structure SyncResult where
  files : List String
  commit_hash : String
  status : String
  message : String
  error : String := ""
  attempts : Nat := 1
  deriving DecidableEq, Repr

/-- The retry loop of `GitSync._process_entry` (`git_sync.py` lines
237-281). `doSync attempt` is the outcome of `_do_sync` on that attempt:
`ok hash` (with the sentinel hash `"skipped"` meaning nothing was staged)
or `error msg` when add/commit/push raised. Returns the single
`SyncResult` handed to `_log_result`, the list of `time.sleep` delays
performed, and the number of `_do_sync` invocations made. Recursion is on
the number of remaining attempts. -/
def processLoop (doSync : Nat → Except String String) (entry : SyncEntry) :
    Nat → Nat → String → List ℚ → Nat → SyncResult × List ℚ × Nat
  | _, 0, lastErr, sleeps, made =>
      ({ files := entry.files, commit_hash := "", status := "failed",
         message := entry.message, error := lastErr,
         attempts := SYNC_MAX_RETRIES }, sleeps, made)
  | attempt, r + 1, _, sleeps, made =>
      match doSync attempt with
      | Except.ok h =>
          ({ files := entry.files, commit_hash := h,
             status := if h = "skipped" then "skipped" else "success",
             message := entry.message, attempts := attempt },
           sleeps, made + 1)
      | Except.error e =>
          processLoop doSync entry (attempt + 1) r e
            (if attempt < SYNC_MAX_RETRIES then sleeps ++ [SYNC_RETRY_DELAY]
             else sleeps)
            (made + 1)

/-- Model of `GitSync._process_entry`: run the retry loop starting at attempt 1
with `_MAX_RETRIES` attempts available. -/
def processEntry (doSync : Nat → Except String String) (entry : SyncEntry) :
    SyncResult × List ℚ × Nat :=
  processLoop doSync entry 1 SYNC_MAX_RETRIES "" [] 0

/-- The queue-draining loop of `GitSync._worker` (`git_sync.py` lines
223-235) composed with `_log_result`: process each queued entry in order
(`none` is the shutdown sentinel and is skipped), appending the per-entry
terminal record to the tracker when a tracker path is configured. Each
entry carries its own `_do_sync` oracle. -/
def workerDrain (trackerPresent : Bool) :
    List (Option (SyncEntry × (Nat → Except String String))) → List SyncResult
  | [] => []
  | none :: rest => workerDrain trackerPresent rest
  | some (entry, doSync) :: rest =>
      (if trackerPresent then [(processEntry doSync entry).1] else []) ++
        workerDrain trackerPresent rest

/-! ### Concrete scenarios used by witnesses and counterexamples -/

/-- Concrete scenario: safety counters on a fresh day. -/
def freshState : LifecycleState :=
  { migrations_today := 0, last_migration_date := "2026-10-12" }

/-- Concrete scenario: a single live sandbox `"sb-old"`. -/
def envOneLive : ControllerEnv := { live := ["sb-old"] }

/-- Concrete scenario: no live sandbox. -/
def envEmpty : ControllerEnv := { live := [] }

/-- Concrete scenario: creation yields `"sb-new"`, deploy fails. -/
def menvDeployFail : MigrateEnv :=
  { today := "2026-10-12", createOutcome := some "sb-new",
    deployOk := false, verifyOk := true }

/-- Concrete scenario: every migration step succeeds. -/
def menvFullSuccess : MigrateEnv :=
  { today := "2026-10-12", createOutcome := some "sb-new",
    deployOk := true, verifyOk := true }

/-- Concrete scenario: the migration steps succeed but the audit-note
write into the old sandbox raises. -/
def menvInjectRaises : MigrateEnv :=
  { today := "2026-10-12", createOutcome := some "sb-new",
    deployOk := true, verifyOk := true, injectRaises := true }

end SocialAgent

namespace SocialAgent

/-! ### Health monitor theorems (claims C3, C8) -/

/-- Counterexample to claim C3 as stated: with the threshold pair
`healthy_threshold = stuck_threshold = 60` and a heartbeat age of exactly
60 seconds, `check_health` classifies the instance `DEAD`, whereas the
claim ("for every pair of thresholds ... a exactly equal to
healthy_threshold resolves to STUCK") demands `STUCK`. -/
theorem check_health_equal_thresholds_counterexample :
    (check_health "sb-1" (.ok ⟨some "2026-01-01T00:00:00+00:00", none⟩) true
      (fun _ => some 0) 60 60 60).seconds_since_heartbeat = some 60 ∧
    (check_health "sb-1" (.ok ⟨some "2026-01-01T00:00:00+00:00", none⟩) true
      (fun _ => some 0) 60 60 60).status = HealthStatus.dead ∧
    (check_health "sb-1" (.ok ⟨some "2026-01-01T00:00:00+00:00", none⟩) true
      (fun _ => some 0) 60 60 60).status ≠ HealthStatus.stuck := by
  refine ⟨?_, ?_, ?_⟩ <;> norm_num [check_health, timestampFalsy] <;> decide

/-- Claim C3 (amended): for every heartbeat age `now - t` and every pair
of thresholds with `healthy_threshold < stuck_threshold`, `check_health`
classifies by half-open intervals — age below the healthy threshold is
`HEALTHY`, age in `[healthy_threshold, stuck_threshold)` is `STUCK`, age
at or above the stuck threshold is `DEAD`, and in particular age exactly
equal to the healthy threshold resolves to `STUCK`, not `HEALTHY`. -/
theorem check_health_interval_classification
    (sandbox_id ts : String) (act : Option String) (alive : Bool)
    (parseIso : String → Option ℚ) (now t healthy_threshold stuck_threshold : ℚ)
    (hts : ts ≠ "") (hp : parseIso ts = some t)
    (hord : healthy_threshold < stuck_threshold) :
    (now - t < healthy_threshold →
      (check_health sandbox_id (.ok ⟨some ts, act⟩) alive parseIso now
        healthy_threshold stuck_threshold).status = HealthStatus.healthy) ∧
    (healthy_threshold ≤ now - t → now - t < stuck_threshold →
      (check_health sandbox_id (.ok ⟨some ts, act⟩) alive parseIso now
        healthy_threshold stuck_threshold).status = HealthStatus.stuck) ∧
    (stuck_threshold ≤ now - t →
      (check_health sandbox_id (.ok ⟨some ts, act⟩) alive parseIso now
        healthy_threshold stuck_threshold).status = HealthStatus.dead) ∧
    (now - t = healthy_threshold →
      (check_health sandbox_id (.ok ⟨some ts, act⟩) alive parseIso now
        healthy_threshold stuck_threshold).status = HealthStatus.stuck) := by
  simp only [check_health, timestampFalsy, hp]
  refine ⟨?_, ?_, ?_, ?_⟩
  · intro h1
    simp [hts, h1]
  · intro h1 h2
    simp [hts, h2, not_lt.mpr h1]
  · intro h1
    simp [hts, not_lt.mpr h1, not_lt.mpr (le_trans (le_of_lt hord) h1)]
  · intro h1
    simp [hts, h1, hord, le_refl]

/-- Witness for the amended claim C3: a 70-second-old heartbeat against
thresholds 60/600 is classified `STUCK`. -/
theorem check_health_interval_classification_witness :
    (check_health "sb-1" (.ok ⟨some "t0", none⟩) true (fun _ => some 0) 70 60 600).status
      = HealthStatus.stuck :=
  (check_health_interval_classification "sb-1" "t0" none true (fun _ => some 0) 70 0 60 600
    (by decide) rfl (by norm_num)).2.1 (by norm_num) (by norm_num)

/-- Claim C8: whenever the heartbeat file is readable and parses as JSON
but holds no parsable timestamp (field missing, empty, or rejected by
`fromisoformat`), `check_health` returns `UNKNOWN` with an explanatory
error and never `DEAD`, for every reachability value `alive`. -/
theorem check_health_missing_timestamp_unknown
    (sandbox_id : String) (hb : HeartbeatJson) (alive : Bool)
    (parseIso : String → Option ℚ) (now healthy_threshold stuck_threshold : ℚ)
    (hnp : ∀ ts, hb.timestamp = some ts → ts ≠ "" → parseIso ts = none) :
    (check_health sandbox_id (.ok hb) alive parseIso now
      healthy_threshold stuck_threshold).status = HealthStatus.unknown ∧
    (check_health sandbox_id (.ok hb) alive parseIso now
      healthy_threshold stuck_threshold).error.isSome = true ∧
    (check_health sandbox_id (.ok hb) alive parseIso now
      healthy_threshold stuck_threshold).status ≠ HealthStatus.dead := by
  obtain ⟨tso, act⟩ := hb
  cases tso with
  | none => simp [check_health, timestampFalsy]
  | some ts =>
      by_cases he : ts = ""
      · simp [check_health, timestampFalsy, he]
      · have := hnp ts rfl he
        simp [check_health, timestampFalsy, he, this]

/-- Witness for claim C8: a heartbeat with no timestamp field on an
unreachable instance is classified `UNKNOWN`, not `DEAD`. -/
theorem check_health_missing_timestamp_unknown_witness :
    (check_health "sb-1" (.ok ⟨none, none⟩) false (fun _ => none) 0 60 600).status
      = HealthStatus.unknown ∧
    (check_health "sb-1" (.ok ⟨none, none⟩) false (fun _ => none) 0 60 600).status
      ≠ HealthStatus.dead :=
  ⟨(check_health_missing_timestamp_unknown "sb-1" ⟨none, none⟩ false
      (fun _ => none) 0 60 600 (fun _ h _ => nomatch h)).1,
   (check_health_missing_timestamp_unknown "sb-1" ⟨none, none⟩ false
      (fun _ => none) 0 60 600 (fun _ h _ => nomatch h)).2.2⟩

end SocialAgent

namespace SocialAgent

/-! ### Reconciler theorems (claims C2, C5, C6) -/

/-- Claim C2: for every population consisting of exactly one instance
whose health classification is `UNKNOWN`, the reconciler takes no
destructive action — the result action is `"healthy"`, the killed list is
empty, and the controller state (live sandboxes and kill-call trace) is
left untouched, so no kill call is issued. -/
theorem reconcile_unknown_no_kill
    (wenv : WatchdogEnv) (sandbox_id : String) (env : ControllerEnv)
    (hone : env.live = [sandbox_id])
    (hu : (wenv.healthStuck sandbox_id).status = HealthStatus.unknown) :
    (runWatchdog wenv env).1.action = "healthy" ∧
    (runWatchdog wenv env).1.killed = [] ∧
    (runWatchdog wenv env).2 = env := by
  simp [runWatchdog, handleOneSandbox, hone, hu]

/-- Witness for claim C2: one live sandbox classified `UNKNOWN` yields
`"healthy"`, an empty killed list and an empty kill-call trace. -/
theorem reconcile_unknown_no_kill_witness :
    (runWatchdog
      { healthDefault := fun id => { sandbox_id := id, status := HealthStatus.unknown },
        healthStuck := fun id => { sandbox_id := id, status := HealthStatus.unknown },
        createOutcome := none, deployOk := true }
      { live := ["sb-1"] }).1.action = "healthy" ∧
    (runWatchdog
      { healthDefault := fun id => { sandbox_id := id, status := HealthStatus.unknown },
        healthStuck := fun id => { sandbox_id := id, status := HealthStatus.unknown },
        createOutcome := none, deployOk := true }
      { live := ["sb-1"] }).1.killed = [] ∧
    (runWatchdog
      { healthDefault := fun id => { sandbox_id := id, status := HealthStatus.unknown },
        healthStuck := fun id => { sandbox_id := id, status := HealthStatus.unknown },
        createOutcome := none, deployOk := true }
      { live := ["sb-1"] }).2.killCalls = [] :=
  ⟨(reconcile_unknown_no_kill _ "sb-1" _ rfl rfl).1,
   (reconcile_unknown_no_kill _ "sb-1" _ rfl rfl).2.1,
   by rw [(reconcile_unknown_no_kill _ "sb-1" _ rfl rfl).2.2]⟩

/-- Claim C5 at the failing input: with two instances both `HEALTHY`, one
with `seconds_since_heartbeat` exactly `0.0` (the freshest possible) and
the other 5 seconds old, the reconciler keeps the 5-second-old `"sb-b"`
and kills the fresher `"sb-a"`, because the Python idiom
`seconds_since_heartbeat or float("inf")` treats the falsy float `0.0` as
infinity. The claim says the instance with the smallest
`seconds_since_heartbeat` is kept. -/
theorem reconcile_zero_age_treated_as_infinite :
    (handleMultipleSandboxes
      { healthDefault := fun id =>
          if id = "sb-a" then
            { sandbox_id := id, status := HealthStatus.healthy,
              seconds_since_heartbeat := some 0 }
          else
            { sandbox_id := id, status := HealthStatus.healthy,
              seconds_since_heartbeat := some 5 },
        healthStuck := fun id =>
          { sandbox_id := id, status := HealthStatus.healthy,
            seconds_since_heartbeat := some 5 },
        createOutcome := none, deployOk := true }
      ["sb-a", "sb-b"] { live := ["sb-a", "sb-b"] }).1 =
      { action := "cleaned", sandbox_id := "sb-b", killed := ["sb-a"] } ∧
    (0 : ℚ) < 5 := by
  constructor
  · rfl
  · norm_num

/-- Counterexample to claim C6 as stated: the outcomes healthy/no-op and
recovered are not distinguishable by exit code alone — both exit 0. -/
theorem watchdog_exit_code_counterexample :
    exitCode { action := "healthy", sandbox_id := "sb-1" } =
      exitCode { action := "recovered", sandbox_id := "sb-2", killed := ["sb-1"] } ∧
    ("healthy" : String) ≠ "recovered" := by
  decide

/-- Claim C6 (amended): the watchdog entry point reports exit code 1 for
the failed outcome, distinguishing it from healthy/no-op and recovered,
which both report exit code 0 and are therefore not distinguishable from
each other by exit code alone. -/
theorem watchdog_exit_codes :
    exitCode { action := "failed", error := "Recovery failed" } = 1 ∧
    exitCode { action := "healthy", sandbox_id := "sb-1" } = 0 ∧
    exitCode { action := "recovered", sandbox_id := "sb-2", killed := ["sb-1"] } = 0 ∧
    exitCode { action := "failed", error := "Recovery failed" } ≠
      exitCode { action := "healthy", sandbox_id := "sb-1" } ∧
    exitCode { action := "failed", error := "Recovery failed" } ≠
      exitCode { action := "recovered", sandbox_id := "sb-2", killed := ["sb-1"] } := by
  decide

/-! ### Migration state machine theorems (claims C1, C4, C7, C10) -/

/-- Claim C1: on every failure path of `migrate` (daily-limit abort,
concurrency-cap or creation failure, deploy failure, verification
failure), the number of live instances after the call equals the number
before it, and every failure path that created a successor (reported via
a nonempty `new_sandbox_id`) also issued a kill for it, leaving it dead,
provided the created id is fresh (not already a live sandbox). -/
theorem migrate_failure_atomic
    (menv : MigrateEnv) (old : String) (maxPerDay : Nat)
    (s : LifecycleState) (env : ControllerEnv)
    (hfresh : ∀ nid, menv.createOutcome = some nid → nid ∉ env.live)
    (hfail : (migrate menv old maxPerDay s env).1.success = false) :
    (migrate menv old maxPerDay s env).2.2.live.length = env.live.length ∧
    ((migrate menv old maxPerDay s env).1.new_sandbox_id ≠ "" →
      (migrate menv old maxPerDay s env).1.new_sandbox_id ∈
        (migrate menv old maxPerDay s env).2.2.killCalls ∧
      (migrate menv old maxPerDay s env).1.new_sandbox_id ∉
        (migrate menv old maxPerDay s env).2.2.live) := by
  by_cases hq : (resetDailyCounter menv.today s).migrations_today < maxPerDay
  case neg =>
    simp [migrate, canMigrate, hq]
  case pos =>
    by_cases hcap : MAX_CONCURRENT_SANDBOXES ≤ env.live.length
    case pos =>
      simp [migrate, canMigrate, createSuccessor, hq, hcap]
    case neg =>
      cases hc : menv.createOutcome with
      | none => simp [migrate, canMigrate, createSuccessor, hq, hcap, hc]
      | some nid =>
          have hnid : nid ∉ env.live := hfresh nid hc
          have herase : (env.live ++ [nid]).erase nid = env.live := by
            rw [List.erase_append_right _ hnid]; simp
          by_cases hd : menv.deployOk
          case neg =>
            simp [migrate, canMigrate, createSuccessor, hq, hcap, hc, hd,
              ControllerEnv.kill, herase, hnid]
          case pos =>
            by_cases hv : menv.verifyOk
            case neg =>
              simp [migrate, canMigrate, createSuccessor, hq, hcap, hc, hd, hv,
                ControllerEnv.kill, herase, hnid]
            case pos =>
              exfalso
              simp [migrate, canMigrate, createSuccessor, hq, hcap, hc, hd, hv] at hfail

/-- Witness for claim C1: a migration whose deploy step fails leaves the
live population at its prior size, with the created `"sb-new"` killed. -/
theorem migrate_failure_atomic_witness :
    (migrate menvDeployFail "sb-old" 10 freshState envOneLive).2.2.live.length =
      envOneLive.live.length ∧
    ("sb-new" ∈ (migrate menvDeployFail "sb-old" 10 freshState envOneLive).2.2.killCalls ∧
      "sb-new" ∉ (migrate menvDeployFail "sb-old" 10 freshState envOneLive).2.2.live) := by
  have h := migrate_failure_atomic menvDeployFail "sb-old" 10 freshState envOneLive
    (fun nid hn => by rw [← Option.some.inj hn]; decide) (by decide)
  exact ⟨h.1, h.2 (by decide)⟩

end SocialAgent

namespace SocialAgent

/-- Counterexample to claim C4 as stated: a fully successful migration
whose old sandbox is no longer live (`kill` returns `False` in
`graceful_shutdown`) returns `success = True` yet leaves
`migrations_today` at its pre-call post-reset value of 0 instead of 1. -/
theorem migrate_success_counter_counterexample :
    (migrate menvFullSuccess "sb-gone" 10 freshState envEmpty).1.success = true ∧
    (migrate menvFullSuccess "sb-gone" 10 freshState envEmpty).2.1.migrations_today ≠
      (resetDailyCounter "2026-10-12" freshState).migrations_today + 1 := by
  decide

/-- Claim C4 (amended): when `migrate` returns `success = True`, the
`migrations_today` counter equals its post-daily-reset pre-call value plus
one exactly when the kill of the old instance succeeds (the old id is live
at shutdown time, i.e. a member of the prior population extended by the
new successor); when that kill fails the counter is unchanged. -/
theorem migrate_success_counter_increment
    (menv : MigrateEnv) (old : String) (maxPerDay : Nat)
    (s : LifecycleState) (env : ControllerEnv)
    (hsucc : (migrate menv old maxPerDay s env).1.success = true) :
    (migrate menv old maxPerDay s env).2.1.migrations_today =
      (resetDailyCounter menv.today s).migrations_today +
        (if old ∈ env.live ++ [(migrate menv old maxPerDay s env).1.new_sandbox_id]
         then 1 else 0) := by
  by_cases hq : (resetDailyCounter menv.today s).migrations_today < maxPerDay
  case neg => simp [migrate, canMigrate, hq] at hsucc
  case pos =>
    by_cases hcap : MAX_CONCURRENT_SANDBOXES ≤ env.live.length
    case pos => simp [migrate, canMigrate, createSuccessor, hq, hcap] at hsucc
    case neg =>
      cases hc : menv.createOutcome with
      | none => simp [migrate, canMigrate, createSuccessor, hq, hcap, hc] at hsucc
      | some nid =>
          by_cases hd : menv.deployOk
          case neg =>
            simp [migrate, canMigrate, createSuccessor, hq, hcap, hc, hd] at hsucc
          case pos =>
            by_cases hv : menv.verifyOk
            case neg =>
              simp [migrate, canMigrate, createSuccessor, hq, hcap, hc, hd, hv]
                at hsucc
            case pos =>
              by_cases hir : menv.injectRaises <;>
              by_cases hmem : old ∈ env.live ++ [nid] <;>
                simp [migrate, canMigrate, createSuccessor, gracefulShutdown,
                  inject_override, ControllerEnv.kill, hq, hcap, hc, hd, hv, hir, hmem]

/-- Witness for the amended claim C4: a fully successful migration whose
old sandbox is live increments the counter from 0 to 1. -/
theorem migrate_success_counter_increment_witness :
    (migrate menvFullSuccess "sb-old" 10 freshState envOneLive).2.1.migrations_today =
      (resetDailyCounter menvFullSuccess.today freshState).migrations_today +
        (if "sb-old" ∈ envOneLive.live ++
            [(migrate menvFullSuccess "sb-old" 10 freshState envOneLive).1.new_sandbox_id]
         then 1 else 0) :=
  migrate_success_counter_increment menvFullSuccess "sb-old" 10 freshState envOneLive
    (by decide)

/-- Claim C7: once the successor passes health verification (and the
limit, capacity, creation and deploy steps succeeded), `migrate` returns
`success = True` and still issues the kill of the old instance, for every
value of `injectRaises` (the best-effort audit-note write may raise) and
for every live population (the kill of the old instance may fail); neither
failure changes the overall success. -/
theorem migrate_success_despite_retire_failure
    (menv : MigrateEnv) (old nid : String) (maxPerDay : Nat)
    (s : LifecycleState) (env : ControllerEnv)
    (hq : (resetDailyCounter menv.today s).migrations_today < maxPerDay)
    (hcap : env.live.length < MAX_CONCURRENT_SANDBOXES)
    (hc : menv.createOutcome = some nid)
    (hd : menv.deployOk = true)
    (hv : menv.verifyOk = true) :
    (migrate menv old maxPerDay s env).1.success = true ∧
    (migrate menv old maxPerDay s env).1.new_sandbox_id = nid ∧
    (migrate menv old maxPerDay s env).2.2.killCalls = env.killCalls ++ [old] := by
  by_cases hir : menv.injectRaises <;>
  by_cases hmem : old ∈ env.live ++ [nid] <;>
    simp [migrate, canMigrate, createSuccessor, gracefulShutdown, inject_override,
      ControllerEnv.kill, hq, not_le.mpr hcap, hc, hd, hv, hir, hmem]

/-- Witness for claim C7: the audit-note write raises and the old sandbox
is not live (its kill fails), yet the migration reports success. -/
theorem migrate_success_despite_retire_failure_witness :
    (migrate menvInjectRaises "sb-old" 10 freshState envEmpty).1.success = true ∧
    (migrate menvInjectRaises "sb-old" 10 freshState envEmpty).1.new_sandbox_id =
      "sb-new" ∧
    (migrate menvInjectRaises "sb-old" 10 freshState envEmpty).2.2.killCalls =
      envEmpty.killCalls ++ ["sb-old"] :=
  migrate_success_despite_retire_failure menvInjectRaises "sb-old" "sb-new" 10
    freshState envEmpty (by decide) (by decide) rfl rfl rfl

/-- Claim C10: a `verify_successor` call with the explicit timeout 0 polls
against the configured `verify_timeout_s` deadline (120 by default), not
zero — the falsy override is replaced by the default, the call behaves
identically to passing no timeout, a genuinely-zero deadline would perform
no poll at all, and with the default configuration a caller passing 0
still gets a full multi-poll verification (here succeeding on the second
poll). -/
theorem verify_successor_zero_timeout_uses_default :
    (∀ d : ℤ, effectiveTimeout (some 0) d = d) ∧
    effectiveTimeout (some 0) DEFAULT_VERIFY_TIMEOUT_S = 120 ∧
    (∀ (health : Nat → HealthStatus) (d : ℤ),
      verify_successor health (some 0) d = verify_successor health none d) ∧
    (∀ health : Nat → HealthStatus, verifyLoop health 0 1 0 = false) ∧
    verify_successor
      (fun k => if k = 0 then HealthStatus.dead else HealthStatus.healthy)
      (some 0) DEFAULT_VERIFY_TIMEOUT_S = true := by
  refine ⟨fun d => rfl, rfl, fun health d => rfl, fun health => rfl, ?_⟩
  decide

/-! ### Sync worker theorems (claim C9) -/

/-- Claim C9: a queued sync entry whose add/commit/push step raises on all
three attempts is attempted exactly 3 times with a fixed 2-second delay
between consecutive attempts, produces exactly one audit record — status
`"failed"`, `attempts = 3`, carrying the last error — and the worker then
processes the subsequently queued entries unchanged. -/
theorem sync_retry_bound
    (doSync : Nat → Except String String) (entry : SyncEntry) (e1 e2 e3 : String)
    (h1 : doSync 1 = Except.error e1) (h2 : doSync 2 = Except.error e2)
    (h3 : doSync 3 = Except.error e3) :
    processEntry doSync entry =
      ({ files := entry.files, commit_hash := "", status := "failed",
         message := entry.message, error := e3, attempts := 3 },
       [2, 2], 3) ∧
    ∀ rest : List (Option (SyncEntry × (Nat → Except String String))),
      workerDrain true (some (entry, doSync) :: rest) =
        { files := entry.files, commit_hash := "", status := "failed",
          message := entry.message, error := e3, attempts := 3 } ::
          workerDrain true rest := by
  have hp : processEntry doSync entry =
      ({ files := entry.files, commit_hash := "", status := "failed",
         message := entry.message, error := e3, attempts := 3 },
       [2, 2], 3) := by
    simp [processEntry, processLoop, h1, h2, h3, SYNC_MAX_RETRIES, SYNC_RETRY_DELAY]
  exact ⟨hp, fun rest => by simp [workerDrain, hp]⟩

/-- Witness for claim C9: an entry whose push always fails is attempted 3
times, sleeps twice for 2 seconds, and is logged once as failed with the
last error. -/
theorem sync_retry_bound_witness :
    processEntry (fun _ => Except.error "git push failed")
      { files := ["state.json"], message := "cycle 42" } =
      ({ files := ["state.json"], commit_hash := "", status := "failed",
         message := "cycle 42", error := "git push failed", attempts := 3 },
       [2, 2], 3) :=
  (sync_retry_bound (fun _ => Except.error "git push failed")
    { files := ["state.json"], message := "cycle 42" }
    "git push failed" "git push failed" "git push failed" rfl rfl rfl).1

end SocialAgent
